import Mathlib

/-!
Verification of the AutEBook incremental web-novel mirroring tool.

This file shallowly embeds the parts of the Rust source that the spec's
claims are about, and settles each claim against the embedding:

* the sync/merge engine (`src/updater/mod.rs`, `get_book`),
* the rate-limited fetch layer (`src/updater/native/request.rs`),
* the EPUB zip assembly and image-filename disambiguation
  (`src/updater/native/epub.rs`, `write`),
* the image resize policy (`src/updater/native/image.rs`),
* the HTML sanitizer (`src/updater/native/epub.rs`, `clean_html`),
* identifier derivation (`src/source/royalroad.rs`, `src/updater/book.rs`).

External nondeterminism (network responses, hash-set iteration order, the
random UUID generator) is passed in as explicit parameters, so every
definition is executable.
-/

namespace AutEBook

/-! ## Data model (src/updater/book.rs)

`DateTime<Utc>` is modeled as an integer timestamp; only its linear order is
used by the code under verification. -/

/-- `Chapter` struct from `src/updater/book.rs` (fields in source order). -/
structure Chapter where
  identifier : String
  date_published : Int
  title : String
  url : String
  content : Option String
  authors_note_start : Option String
  authors_note_end : Option String
  deriving Repr, DecidableEq

/-- `impl PartialEq for Chapter` (`src/updater/book.rs` lines 152-157 and
`src/updater/native/book.rs` lines 265-270): equality compares only
`identifier`. -/
def Chapter.beqByIdentifier (a b : Chapter) : Bool :=
  a.identifier == b.identifier

instance : BEq Chapter := ⟨Chapter.beqByIdentifier⟩

/-- `Book` struct from `src/updater/book.rs`. -/
structure Book where
  id : String
  url : String
  title : String
  author : String
  description : String
  date_published : Int
  cover_url : String
  chapters : List Chapter
  deriving Repr

/-- `Book::clone_without_chapters` (`src/updater/book.rs` lines 107-118). -/
def Book.clone_without_chapters (b : Book) : Book :=
  { b with chapters := [] }

/-! ## Fetch layer (src/updater/native/request.rs) -/

/-- HTTP status of the k-th attempt of one logical GET; the network is an
oracle assigning a status code to each attempt. -/
abbrev StatusOracle := Nat → Nat

/-- The `AGENT.get(url).call()` boundary with its `map_err`
(`src/updater/native/request.rs` lines 62-65).  The agent is built from
`Agent::config_builder()` defaults plus a user agent, so ureq 3's default
`http_status_as_error = true` applies: a response with status >= 400 comes
back from `.call()` as `Err(Error::StatusCode(..))` — which the source
wraps into the eyre error modeled here (ureq's `Error::StatusCode` Display
is `http status: {code}`) and propagates with `?` — and never reaches the
caller's status check on line 67. -/
def ureq_call (st : Nat) : Except String Nat :=
  if st ≥ 400 then
    .error s!"http status: {st}, you might not be connected to the internet."
  else .ok st

/-- `send_get_request_rec` (`src/updater/native/request.rs` lines 30-74),
backoff recursion only (sleeping and the per-host token bucket do not affect
the returned value).  State threaded explicitly: `attempt` is the index of
the next physical request, `bounce` the shared escalation counter.  Returns
the propagated call error, or `(status of the response handed back to the
caller as the successful body, index of the attempt that produced it,
bounce counter afterwards)`.  The recursion mirrors the source text (429
with `bounce <= 10` increments the counter and retries; otherwise the
counter is reset to 0 and the body returned as `Ok`), but a 429 never
reaches this check: `ureq_call` already turned every status >= 400 into
the propagated error, so the retry branch is unreachable and `BOUNCE` is
never incremented. -/
def send_get_request_rec (status : StatusOracle) (attempt bounce : Nat) :
    Except String (Nat × Nat × Nat) :=
  match ureq_call (status attempt) with
  | .error e => .error e
  | .ok st =>
    if st = 429 ∧ bounce ≤ 10 then
      send_get_request_rec status (attempt + 1) (bounce + 1)
    else
      .ok (st, attempt, 0)
termination_by 11 - bounce
decreasing_by omega

/-- `get_bytes` body-reading stage (`src/updater/native/request.rs` lines
21-28): `read_to_vec` under `.limit(100_000_000)`.  Models ureq's limit
semantics: a body longer than the limit is an error, otherwise the body is
returned whole. -/
def read_to_vec_limited (limit : Nat) (body : List Nat) :
    Except String (List Nat) :=
  if body.length > limit then
    .error "Broken link : body exceeds limit"
  else
    .ok body

/-- `get_bytes` (`src/updater/native/request.rs` lines 21-28), applied to the
body of an already-obtained successful response. -/
def get_bytes (body : List Nat) : Except String (List Nat) :=
  read_to_vec_limited 100000000 body

/-! ## Sync engine (src/updater/mod.rs) -/

/-- `UpdateResult` enum (`src/updater/mod.rs` lines 14-24).  `Updated` and
`MoreChapterThanSource` carry a `u16` in the source; `get_book`'s checked
cast keeps the modeled `Nat` below 2^16. -/
inductive UpdateResult where
  | Unsupported
  | UpToDate
  | Updated (count : Nat)
  | Skipped
  | MoreChapterThanSource (count : Nat)
  | Error (reason : String)
  deriving Repr, DecidableEq

/-- Outcome of scraping one chapter page (`src/source/royalroad.rs` lines
158-171): the three selector extractions, each of which may find nothing. -/
structure FetchedPage where
  content : Option String
  authors_note_start : Option String
  authors_note_end : Option String
  deriving Repr, DecidableEq

/-- The network+scraper oracle behind `request::get_text` plus the selector
extraction: maps a chapter URL to either a transport error or the scraped
page. -/
abbrev PageOracle := String → Except String FetchedPage

/-- Result of one `update_chapter_content` call: the (possibly rewritten)
chapter, the returned `Result<()>`, and how many network requests were
performed. -/
structure ChapterUpdate where
  chapter : Chapter
  result : Except String Unit
  requests : Nat
  deriving Repr

/-- `WebnovelSource::update_chapter_content` for RoyalRoad
(`src/source/royalroad.rs` lines 153-174; the same early-return guard
appears in `src/updater/native/book.rs` lines 322-343): if the chapter
already holds content it returns `Ok(())` without touching the network;
otherwise it issues one GET and overwrites the three content fields with
whatever the selectors find. A transport error leaves the chapter
untouched. -/
def update_chapter_content (fetch : PageOracle) (c : Chapter) :
    ChapterUpdate :=
  if c.content.isSome then ⟨c, .ok (), 0⟩
  else
    match fetch c.url with
    | .error e => ⟨c, .error e, 1⟩
    | .ok page =>
        ⟨{ c with
            content := page.content
            authors_note_start := page.authors_note_start
            authors_note_end := page.authors_note_end },
          .ok (), 1⟩

/-- `HashSet<String>::insert`, with the set modeled as an insertion-ordered
duplicate-free list (only membership and cardinality of the set are ever
observed by `get_book`, so the ordering is immaterial). -/
def insertId (s : List String) (id : String) : List String :=
  if id ∈ s then s else s ++ [id]

/-- First stage of `get_book`'s `chapter_to_update_ids`
(`src/updater/mod.rs` lines 109-119): identifiers of fetched chapters that
already exist in the current book but whose remote `date_published` moved
forward, collected into the set. -/
def date_advanced_ids (fetched current : Book) : List String :=
  ((fetched.chapters.filter fun f =>
      current.chapters.any fun c =>
        c.identifier == f.identifier
          && f.date_published > c.date_published).map
    Chapter.identifier).foldl insertId []

/-- `fetched_book.chapters.retain(|e| !current_book.chapters.contains(e))`
(`src/updater/mod.rs` lines 122-124): the chapters of the remote index not
yet present in the current book; `contains` is `any (· == e)` with the
identifier-only `PartialEq` of `Chapter`. -/
def new_chapters (fetched current : Book) : List Chapter :=
  fetched.chapters.filter fun e => !(current.chapters.any fun c => c == e)

/-- The full `chapter_to_update_ids` set (`src/updater/mod.rs` lines
109-128): date-advanced identifiers plus the identifiers of the new
chapters. -/
def chapter_to_update_ids (fetched current : Book) : List String :=
  (new_chapters fetched current).foldl (fun s c => insertId s c.identifier)
    (date_advanced_ids fetched current)

/-- The chapter pipeline of `get_book` (`src/updater/mod.rs` lines
130-158): append the new chapters to the current ones, run
`update_chapter_content` on every chapter whose identifier is in
`chapter_to_update_ids` (errors are logged by the `for_each` closure and
swallowed), then `retain(|c| c.content.is_some())`. -/
def refreshed_chapters (fetch : PageOracle) (fetched current : Book) :
    List Chapter :=
  ((current.chapters ++ new_chapters fetched current).map fun c =>
      if c.identifier ∈ chapter_to_update_ids fetched current then
        (update_chapter_content fetch c).chapter
      else c).filter
    fun c => c.content.isSome

/-- `get_book` (`src/updater/mod.rs` lines 96-171), with the initial
metadata fetch already performed (`fetched_book` is the result of
`fetch_without_chapter_content`) and the per-chapter page fetches behind
the `fetch` oracle.  Per-chapter errors never surface here; the only error
path after the metadata fetch is the checked `u16` cast of the refresh
count. -/
def get_book (fetch : PageOracle) (fetched_book : Book)
    (current_book? : Option Book) : Except String (Book × UpdateResult) :=
  let current_book := current_book?.getD fetched_book.clone_without_chapters
  let ids := chapter_to_update_ids fetched_book current_book
  if ids.length > 65535 then
    .error
      "There is way too many new chapters (more than 50_000), something probably got wrong"
  else
    .ok
      ({ current_book with
          chapters := refreshed_chapters fetch fetched_book current_book
          cover_url := fetched_book.cover_url },
        if ids.length > 0 then .Updated ids.length else .UpToDate)

/-! ## URL handling (url crate, as used by the repository)

The `url` crate is external; its behavior is modeled for the inputs the
repository feeds it: well-formed absolute `http`/`https` URLs without
userinfo or port, and arbitrary non-URL strings (for which `Url::parse`
fails and the callers fall back or error). -/

/-- Split a character list on a separator; like `str::split`, the result
always has at least one (possibly empty) piece. -/
def splitOnChar (sep : Char) : List Char → List (List Char)
  | [] => [[]]
  | c :: cs =>
    let rest := splitOnChar sep cs
    if c = sep then [] :: rest
    else
      match rest with
      | [] => [[c]]
      | r :: rs => (c :: r) :: rs

/-- Models `Url::parse(url)?.path_segments()` for absolute `http(s)` URLs:
the path is everything between the host and the first `?` or `#`, split on
`/`; for these special schemes an absent path is normalized to `/`, i.e. a
single empty segment.  Strings not starting with an `http(s)` scheme are
outside the modeled domain and yield `none` (parse failure). -/
def url_path_segments (url : String) : Option (List String) :=
  let rest? :=
    if "https://".data.isPrefixOf url.data then some (url.data.drop 8)
    else if "http://".data.isPrefixOf url.data then some (url.data.drop 7)
    else none
  rest?.map fun rest =>
    let path := (rest.takeWhile fun c => c ≠ '#').takeWhile fun c => c ≠ '?'
    match splitOnChar '/' path with
    | [] => [""]
    | _host :: segs =>
        if segs.isEmpty then [""]
        else segs.map fun l => (⟨l⟩ : String)

/-- `str::parse::<u32>` on an already-extracted path segment: decimal
digits only (the source never feeds a sign), rejecting empty strings and
values outside `u32` range. -/
def parse_u32 (s : String) : Option Nat :=
  if s.data ≠ [] ∧ s.data.all Char.isDigit then
    let n := s.data.foldl (fun acc c => acc * 10 + (c.toNat - 48)) 0
    if n < 2 ^ 32 then some n else none
  else none

/-! ## Identifier derivation (src/source/royalroad.rs, src/updater/book.rs) -/

/-- `get_id_from_url` (`src/source/royalroad.rs` lines 200-209): the second
path segment of the fiction URL, falling back to `Uuid::new_v4()` — a
random value, passed in as `freshUuid` — when the URL does not parse or is
too short. -/
def royalroad_get_id_from_url (url : String) (freshUuid : String) : String :=
  (((url_path_segments url).bind fun segs => segs.get? 1).map id).getD
    freshUuid

/-- `Book::get_id_from_url` (`src/updater/native/book.rs` lines 217-225):
the second path segment parsed as a `u32`; an unparseable URL, a short
path or a non-numeric segment is an error. -/
def native_get_id_from_url (url : String) : Except String Nat :=
  match (url_path_segments url).bind fun segs =>
      (segs.get? 1).bind parse_u32 with
  | some id => .ok id
  | none => .error s!"Invalid book URL: {url}"

/-- The metadata entries `Book::from_path` reads from an existing archive
(`src/updater/book.rs` lines 45-64); `identifier_meta` is
`mdata("identifier")` and `date` the already-parsed `mdata("date")`. -/
structure EpubMetadata where
  source : Option String
  identifier_meta : Option String
  title : Option String
  creator : Option String
  description_meta : Option String
  date : Option Int
  deriving Repr, DecidableEq

/-- The `Book` header constructed by `Book::from_path` (`src/updater/book.rs`
lines 45-64), with the random `Uuid::new_v4()` passed in as `freshUuid` and
`now` fixed by the caller; the image-caching and chapter-walking parts are
omitted (they never touch `id`). -/
def from_path_header (m : EpubMetadata) (freshUuid : String) (now : Int) :
    Book :=
  { id := m.identifier_meta.getD freshUuid
    url := m.source.getD ""
    title := m.title.getD ""
    author := m.creator.getD ""
    description := m.description_meta.getD ""
    date_published := m.date.getD now
    cover_url := ""
    chapters := [] }

/-! ## EPUB zip assembly (src/updater/native/epub.rs) -/

/-- `FORBIDDEN_CHARACTERS` (`src/updater/native/epub.rs` lines 28-30),
with the duplicated `'"'` kept as in the source. -/
def FORBIDDEN_CHARACTERS : List Char :=
  ['/', '\\', ':', '*', '?', '"', '<', '>', '|', '%', '"', '[', ']']

/-- `str::replace(FORBIDDEN_CHARACTERS, "_")`: every occurrence of one of
the pattern characters becomes `_`. -/
def replace_forbidden (s : String) : String :=
  ⟨s.data.map fun c => if c ∈ FORBIDDEN_CHARACTERS then '_' else c⟩

/-- `extract_file_name_from_url` (`src/updater/native/image.rs` lines
22-31): strip query and fragment, take the last path segment, replace
forbidden characters. -/
def extract_file_name_from_url (url : String) : Option String :=
  (url_path_segments url).bind fun segs =>
    segs.getLast?.map replace_forbidden

/-- `extract_file_name_from_path` (`src/updater/native/image.rs` lines
33-38): `Path::file_name` modeled as the last non-empty, non-`.`
`/`-separated component, which does not exist for `..` either. -/
def extract_file_name_from_path (path : String) : Option String :=
  match ((splitOnChar '/' path.data).filter
      fun c => c ≠ [] ∧ c ≠ ['.']).getLast? with
  | some comp =>
      if comp = ['.', '.'] then none
      else some (replace_forbidden ⟨comp⟩)
  | none => none

/-- `extract_file_name` (`src/updater/native/image.rs` lines 16-20). -/
def extract_file_name (url : String) : Except String String :=
  match (extract_file_name_from_url url).orElse
      (fun _ => extract_file_name_from_path url) with
  | some f => .ok f
  | none => .error s!"{url} is neither an url nor a path"

/-- Zip compression method of an entry.  `write` uses
`SimpleFileOptions::default().compression_method(CompressionMethod::Deflated)`
for every entry it starts. -/
inductive CompressionMethod where
  | Stored
  | Deflated
  deriving Repr, DecidableEq

/-- Payload of a zip entry.  The mimetype entry's bytes are a literal in
the source; the XML/CSS serializer outputs and the directory marker are
represented by tagged constructors (their bytes are irrelevant to every
claim). -/
inductive EntryPayload where
  | bytes (s : String)
  | directory
  | containerXml
  | tocNcx
  | navXhtml
  | chapterHtml (c : Chapter)
  | imageBytes (buffer : String)
  | titleHtml
  | contentOpf (image_filenames : List String)
  | stylesheet
  deriving Repr, DecidableEq

/-- One entry of the produced zip archive, in writing order. -/
structure ZipEntry where
  name : String
  method : CompressionMethod
  payload : EntryPayload
  deriving Repr, DecidableEq

/-- Accumulator of the image download loop: entries written so far, the
`image_filenames` set (insertion-ordered model of the `HashSet`), and the
`disambiguation_integer` counter. -/
structure ImageWriteState where
  entries : List ZipEntry
  image_filenames : List String
  disambiguation_integer : Nat
  deriving Repr, DecidableEq

/-- One iteration of the image loop of `write` (`src/updater/native/epub.rs`
lines 417-443): a failed filename extraction is logged and skipped; a name
collision prefixes the filename with the counter and increments it; a
failed download is logged, skipped, and does not reserve the filename. -/
def write_image_step (download : String → Option String) :
    ImageWriteState → String → ImageWriteState
  | ⟨entries, image_filenames, disambiguation_integer⟩, url =>
    match extract_file_name url with
    | .error _ => ⟨entries, image_filenames, disambiguation_integer⟩
    | .ok f =>
      let filename :=
        if image_filenames.contains f then s!"{disambiguation_integer}_{f}"
        else f
      let disambiguation_next :=
        if image_filenames.contains f then disambiguation_integer + 1
        else disambiguation_integer
      match download url with
      | some buffer =>
          ⟨entries
              ++ [⟨s!"OEBPS/images/{filename}", .Deflated,
                  .imageBytes buffer⟩],
            image_filenames ++ [filename], disambiguation_next⟩
      | none => ⟨entries, image_filenames, disambiguation_next⟩

/-- `write` (`src/updater/native/epub.rs` lines 358-462) as the ordered
list of zip entries started in the archive.  `image_urls` is the iteration
order of the `images: HashSet<String>` (the cover URL plus every inline
image URL extracted from chapter bodies and author's notes; hash iteration
order is unspecified, hence a parameter) and `download` models
`download_image` (cache hit or network), `none` being a failure. -/
def write (book : Book) (image_urls : List String)
    (download : String → Option String) : List ZipEntry :=
  let imageState :=
    image_urls.foldl (write_image_step download) ⟨[], [], 0⟩
  [(⟨"mimetype", .Deflated, .bytes "application/epub+zip"⟩ : ZipEntry),
      ⟨"META-INF", .Deflated, .directory⟩,
      ⟨"META-INF/container.xml", .Deflated, .containerXml⟩,
      ⟨"OEBPS/toc.ncx", .Deflated, .tocNcx⟩,
      ⟨"OEBPS/nav.xhtml", .Deflated, .navXhtml⟩]
    ++ (book.chapters.map fun c =>
        (⟨s!"OEBPS/text/{c.identifier}.xhtml", .Deflated,
          .chapterHtml c⟩ : ZipEntry))
    ++ imageState.entries
    ++ [⟨"OEBPS/text/title.xhtml", .Deflated, .titleHtml⟩,
        ⟨"OEBPS/content.opf", .Deflated,
          .contentOpf imageState.image_filenames⟩,
        ⟨"OEBPS/styles/stylesheet.css", .Deflated, .stylesheet⟩]

/-! ## Image pipeline (src/updater/native/image.rs) -/

/-- The image formats `resize` manages (`src/updater/native/image.rs`
lines 84-91). -/
inductive ManagedImageFormat where
  | Png
  | Jpeg
  | Webp
  | Gif
  | Svg
  | Html
  deriving Repr, DecidableEq

/-- The formats that go through decode-resize-re-encode
(`src/updater/native/image.rs` lines 92-96). -/
inductive ResizableImageFormat where
  | Png
  | Jpeg
  | Webp
  deriving Repr, DecidableEq

/-- `std::str::from_utf8`, restricted to the ASCII subset (sufficient for
every byte pattern the format sniffing distinguishes; multi-byte UTF-8
sequences never begin the `<?xml`/`<svg`/`<!doctype html>`/`<html`
prefixes being tested). -/
def ascii_decode (bytes : List Nat) : Option (List Char) :=
  if bytes.all (· < 128) then some (bytes.map fun b => Char.ofNat b)
  else none

/-- `char::to_lowercase` on ASCII. -/
def ascii_lower (c : Char) : Char :=
  if 'A' ≤ c ∧ c ≤ 'Z' then Char.ofNat (c.toNat + 32) else c

/-- Whether a character is trimmed by `str::trim` (ASCII whitespace). -/
def is_trim_ws (c : Char) : Bool :=
  c = ' ' ∨ c = '\t' ∨ c = '\n' ∨ c = '\r' ∨ c = '\x0c' ∨ c = '\x0b'

/-- `str::trim` over a character list. -/
def trim_ws (l : List Char) : List Char :=
  ((l.dropWhile is_trim_ws).reverse.dropWhile is_trim_ws).reverse

/-- `ManagedImageFormat::new` (`src/updater/native/image.rs` lines
98-153): format sniffing from magic bytes only, then an UTF-8 text
fallback recognizing SVG/XML and HTML prefixes case-insensitively after
trimming. -/
def ManagedImageFormat.new (bytes : List Nat) :
    Option ManagedImageFormat :=
  if bytes.length > 8
      ∧ bytes.take 8 = [0x89, 0x50, 0x4E, 0x47, 0x0D, 0x0A, 0x1A, 0x0A] then
    some .Png
  else if bytes.length > 3 ∧ bytes.take 3 = [0xFF, 0xD8, 0xFF] then
    some .Jpeg
  else if bytes.length > 11 ∧ bytes.take 4 = [0x52, 0x49, 0x46, 0x46]
      ∧ (bytes.drop 8).take 4 = [0x57, 0x45, 0x42, 0x50] then
    some .Webp
  else if bytes.length > 3 ∧ bytes.take 4 = [0x47, 0x49, 0x46, 0x38] then
    some .Gif
  else
    match ascii_decode bytes with
    | none => none
    | some text =>
      let t := trim_ws (text.map ascii_lower)
      if "<?xml".data.isPrefixOf t ∨ "<svg".data.isPrefixOf t then
        some .Svg
      else if "<!doctype html>".data.isPrefixOf t
          ∨ "<html".data.isPrefixOf t then
        some .Html
      else none

/-- `as_resizable_image` (`src/updater/native/image.rs` lines 155-162). -/
def ManagedImageFormat.as_resizable_image :
    ManagedImageFormat → Option ResizableImageFormat
  | .Png => some .Png
  | .Jpeg => some .Jpeg
  | .Webp => some .Webp
  | .Gif | .Svg | .Html => none

/-- What `resize` (`src/updater/native/image.rs` lines 65-82) does with
the input bytes: GIF and SVG pass through unchanged; PNG, JPEG, WEBP are
decoded, resized and re-encoded (PNG/WEBP as PNG, JPEG as JPEG). -/
inductive ResizeAction where
  | passthrough
  | reencode (fmt : ResizableImageFormat)
  deriving Repr, DecidableEq

/-- The control flow of `resize` (`src/updater/native/image.rs` lines
65-82): unknown byte patterns and HTML are errors; GIF/SVG bytes are
returned as-is; the resizable formats take the decode-resize-re-encode
path (the pixel work itself is the external image crate, whose dimension
policy is `rezise_dims` below). -/
def resize_action (bytes : List Nat) : Except String ResizeAction :=
  match ManagedImageFormat.new bytes with
  | none =>
      .error
        "Unsupported inline image format. Please report this as a bug and include the link."
  | some m =>
    match m with
    | .Html => .error "Skipping html."
    | .Gif | .Svg => .ok .passthrough
    | _ =>
      match m.as_resizable_image with
      | some r => .ok (.reencode r)
      | none => .error "Image is not rezisable."

/-- `DynamicImage::resize` dimension computation: models the image
crate's `resize_dimensions(width, height, nwidth, nheight, fill=false)`.
The crate computes the f64 ratios `nwidth/width` and `nheight/height`,
takes the smaller, scales both dimensions by it, rounds half away from
zero (`f64::round`) and clamps to at least 1.  Modeled with exact
fraction arithmetic over `ℕ`: the smaller ratio is selected by
cross-multiplication (`nwidth/width ≤ nheight/height` iff
`nwidth*height ≤ nheight*width` for positive dimensions), and
`round(dim * sn/sd)` is `(2*dim*sn + sd) / (2*sd)` with truncating
division — the exact value of rounding half away from zero on
nonnegative rationals.  The claims only exercise magnitudes where the
crate's f64 arithmetic agrees with the exact value (its error is orders
of magnitude below the rounding granularity; the `u32::MAX` overflow
clamp is likewise out of reach). -/
def resize_dimensions (width height nwidth nheight : Nat) : Nat × Nat :=
  let scale : Nat × Nat :=
    if nwidth * height ≤ nheight * width then (nwidth, width)
    else (nheight, height)
  let nw := max ((2 * (width * scale.1) + scale.2) / (2 * scale.2)) 1
  let nh := max ((2 * (height * scale.1) + scale.2) / (2 * scale.2)) 1
  (nw, nh)

/-- The dimension behavior of `ResizableImageFormat::rezise`
(`src/updater/native/image.rs` lines 178-185): the decoded image is
resized to fit within `(600, 600 * height / width)`, the bound computed
with truncating `u32` division. -/
def rezise_dims (width height : Nat) : Nat × Nat :=
  resize_dimensions width height 600 (600 * height / width)

/-! ## HTML sanitizer (src/updater/native/epub.rs, clean_html)

`clean_html` (lines 641-675) is a pipeline of eleven string replacements:
six `Regex::replace_all` calls, three literal `str::replace` calls, and
two more `replace_all` calls.  Each is modeled as a left-to-right,
non-overlapping scan with a matcher that decides, at the current
position, whether the pattern matches (and with what length and
replacement) — the semantics both of `replace_all` and of
`str::replace`.  Each individual regex here is deterministic: its greedy
character classes cannot backtrack into a successful match, so a direct
longest-munch matcher is exact. -/

/-- A replacement matcher: at the current position, `some (n, repl)`
means the pattern matches the next `n ≥ 1` characters, to be replaced by
`repl`. -/
abbrev Matcher := List Char → Option (Nat × List Char)

/-- Left-to-right, non-overlapping replace-all; `fuel = length` always
suffices (each step consumes at least one character). -/
def replaceAllAux (m : Matcher) : Nat → List Char → List Char
  | 0, s => s
  | _ + 1, [] => []
  | fuel + 1, c :: cs =>
    match m (c :: cs) with
    | some (n + 1, repl) => repl ++ replaceAllAux m fuel (cs.drop n)
    | _ => c :: replaceAllAux m fuel cs

/-- One `replace_all` pass over a string. -/
def runPass (m : Matcher) (s : String) : String :=
  ⟨replaceAllAux m s.data.length s.data⟩

/-- The regex class `\s` (ASCII white-space subset of Unicode
White_Space, which is all the sanitized HTML contains). -/
def rust_ws (c : Char) : Bool :=
  c = ' ' ∨ c = '\t' ∨ c = '\n' ∨ c = '\r' ∨ c = '\x0b' ∨ c = '\x0c'

/-- Regex `\s*font-family:[^;"]*(?:;\s*|("))` replaced by `$1`
(`clean_html` line 643): strips a font-family declaration up to and
including a terminating `;` (with trailing white-space) or up to a
closing `"`, which is kept. -/
def font_family_matcher_1 : Matcher := fun s =>
  let w := (s.takeWhile rust_ws).length
  let s1 := s.drop w
  if "font-family:".data.isPrefixOf s1 then
    let s2 := s1.drop 12
    let k := (s2.takeWhile fun c => ¬(c = ';' ∨ c = '"')).length
    match s2.drop k with
    | ';' :: rest =>
        some (w + 12 + k + 1 + (rest.takeWhile rust_ws).length, [])
    | '"' :: _ => some (w + 12 + k + 1, ['"'])
    | _ => none
  else none

/-- Regex `font-family:[^;"]*"` replaced by `"` (`clean_html` line
647). -/
def font_family_matcher_2 : Matcher := fun s =>
  if "font-family:".data.isPrefixOf s then
    let s2 := s.drop 12
    let k := (s2.takeWhile fun c => ¬(c = ';' ∨ c = '"')).length
    match s2.drop k with
    | '"' :: _ => some (12 + k + 1, ['"'])
    | _ => none
  else none

/-- Regex `pre\s?word` deleted, the shape of the `font-weight:\s?normal`,
`font-weight:\s?400` (lines 651-654) and `overflow:\s?auto` (line 672)
patterns; `\s?` is greedy, preferring to consume one white-space. -/
def colon_value_matcher (pre word : List Char) : Matcher := fun s =>
  if pre.isPrefixOf s then
    let s1 := s.drop pre.length
    match s1 with
    | c :: rest =>
        if rust_ws c then
          if word.isPrefixOf rest then
            some (pre.length + 1 + word.length, [])
          else if word.isPrefixOf s1 then
            some (pre.length + word.length, [])
          else none
        else if word.isPrefixOf s1 then
          some (pre.length + word.length, [])
        else none
    | [] => none
  else none

/-- Regex ` class="[^"]*"` deleted (`clean_html` line 657). -/
def class_attr_matcher : Matcher := fun s =>
  if " class=\"".data.isPrefixOf s then
    let s1 := s.drop 8
    let k := (s1.takeWhile fun c => c ≠ '"').length
    match s1.drop k with
    | '"' :: _ => some (8 + k + 1, [])
    | _ => none
  else none

/-- Regex `(<img[^>]*[^/])>` replaced by `$1/>` (`clean_html` line 661):
closes an unclosed `<img ...>` tag.  Greedy backtracking worked out: the
match reaches the first `>` after `<img`; if that `>` is immediately
followed by another `>`, the greedy `[^>]*` keeps all characters before
the first `>`, `[^/]` takes the first `>` itself and the literal `>` the
second; otherwise `[^/]` must be the last character before the `>`,
which therefore must not be `/`. -/
def img_close_matcher : Matcher := fun s =>
  if "<img".data.isPrefixOf s then
    let rest := s.drop 4
    let k := (rest.takeWhile fun c => c ≠ '>').length
    match rest.drop k with
    | '>' :: '>' :: _ =>
        some (4 + k + 2, "<img".data ++ rest.take k ++ ['>', '/', '>'])
    | '>' :: _ =>
        if k > 0 ∧ (rest.take k).getLast? ≠ some '/' then
          some (4 + k + 1, "<img".data ++ rest.take k ++ ['/', '>'])
        else none
    | _ => none
  else none

/-- `str::replace(pat, repl)` (`clean_html` lines 663-664 and 667). -/
def literal_matcher (pat repl : List Char) : Matcher := fun s =>
  if pat.isPrefixOf s then some (pat.length, repl) else none

/-- Regex `<p[^>]*>\s*</p>` deleted (`clean_html` lines 668-669):
removes paragraphs containing only white-space (after `&nbsp;` was
already replaced by a space). -/
def empty_p_matcher : Matcher := fun s =>
  if "<p".data.isPrefixOf s then
    let s1 := s.drop 2
    let k := (s1.takeWhile fun c => c ≠ '>').length
    match s1.drop k with
    | '>' :: rest =>
        let w := (rest.takeWhile rust_ws).length
        if "</p>".data.isPrefixOf (rest.drop w) then
          some (2 + k + 1 + w + 4, [])
        else none
    | _ => none
  else none

/-- `clean_html` (`src/updater/native/epub.rs` lines 641-675): the
eleven replacement passes in source order. -/
def clean_html (original_content : String) : String :=
  let content := runPass font_family_matcher_1 original_content
  let content := runPass font_family_matcher_2 content
  let content := runPass
    (colon_value_matcher "font-weight:".data "normal".data) content
  let content := runPass
    (colon_value_matcher "font-weight:".data "400".data) content
  let content := runPass class_attr_matcher content
  let content := runPass img_close_matcher content
  let content := runPass (literal_matcher "<br>".data "<br/>".data) content
  let content := runPass (literal_matcher "<hr>".data "<hr/>".data) content
  let content := runPass (literal_matcher "&nbsp;".data " ".data) content
  let content := runPass empty_p_matcher content
  runPass (colon_value_matcher "overflow:".data "auto".data) content

/-- The eleven matchers of `clean_html`, in pass order. -/
def clean_html_matchers : List Matcher :=
  [font_family_matcher_1, font_family_matcher_2,
    colon_value_matcher "font-weight:".data "normal".data,
    colon_value_matcher "font-weight:".data "400".data,
    class_attr_matcher, img_close_matcher,
    literal_matcher "<br>".data "<br/>".data,
    literal_matcher "<hr>".data "<hr/>".data,
    literal_matcher "&nbsp;".data " ".data,
    empty_p_matcher,
    colon_value_matcher "overflow:".data "auto".data]

/-- Whether a matcher fires anywhere in the character list. -/
def hasMatch (m : Matcher) : List Char → Bool
  | [] => false
  | c :: cs => (m (c :: cs)).isSome || hasMatch m cs

/-- A string on which none of the sanitizer's eleven patterns fires
anywhere: such a string is a fixed point of every pass. -/
def fully_clean (s : String) : Bool :=
  clean_html_matchers.all fun m => !(hasMatch m s.data)

end AutEBook



namespace AutEBook

/-! ## Claim C8 : identifier-only chapter equality -/

/-- Claim C8: for all chapters `a` and `b`, `a == b` holds if and only if
their `identifier` fields are equal; `content`, `date_published`, `title`
and `url` do not participate, so two chapters with equal identifier but
different content and dates compare equal. -/
theorem chapter_eq_iff_identifier_eq :
    (∀ a b : Chapter, (a == b) = true ↔ a.identifier = b.identifier) ∧
    (∀ (i : String) (d₁ d₂ : Int) (t₁ t₂ u₁ u₂ : String)
        (c₁ c₂ s₁ s₂ e₁ e₂ : Option String),
      (Chapter.mk i d₁ t₁ u₁ c₁ s₁ e₁ == Chapter.mk i d₂ t₂ u₂ c₂ s₂ e₂)
        = true) := by
  constructor
  · intro a b
    simp [BEq.beq, Chapter.beqByIdentifier, beq_iff_eq]
  · intro i d₁ d₂ t₁ t₂ u₁ u₂ c₁ c₂ s₁ s₂ e₁ e₂
    simp [BEq.beq, Chapter.beqByIdentifier]

/-! ## Claim C2 : 429 handling -/

/-- A status carried by a successful `ureq_call` is below 400. -/
theorem ureq_call_ok_lt (x s : Nat) (h : ureq_call x = .ok s) : s < 400 := by
  unfold ureq_call at h
  by_cases hge : x ≥ 400
  · rw [if_pos hge] at h
    exact Except.noConfusion h
  · rw [if_neg hge] at h
    injection h with h
    omega

/-- Claim C2, counterexample: the escalation machinery is dead code.
Under ureq's default `http_status_as_error`, `.call()` turns a 429 into
`Err` before line 67's status check, so an all-429 upstream fails the
fetch at the FIRST attempt, with the generic propagated status error —
it does not retry even at bounce level 0, where the claimed backoff
mandates a retry, and at a counter past the ceiling the error is the
same generic one, not a `RateLimitExhausted` (no such error exists in
the code). -/
theorem first_429_fails_request :
    send_get_request_rec (fun _ => 429) 0 0
      = .error
        "http status: 429, you might not be connected to the internet." ∧
    send_get_request_rec (fun _ => 429) 0 11
      = .error
        "http status: 429, you might not be connected to the internet." := by
  refine ⟨?_, ?_⟩ <;> (rw [send_get_request_rec]; rfl)

/-- Claim C2 as amended: every request whose response has HTTP status
429 fails immediately with the fatal generic status error, regardless of
the shared bounce counter's value — no retry occurs at any escalation
level (the backoff branch is unreachable, so the counter never climbs)
— and a fetch that succeeds never carries a 429 (or any >= 400) status,
so a 429 is never returned as a success. -/
theorem status_429_fails_immediately (status : StatusOracle)
    (attempt bounce : Nat) :
    (status attempt = 429 →
      send_get_request_rec status attempt bounce
        = .error
          "http status: 429, you might not be connected to the internet.") ∧
    (∀ st att bo,
      send_get_request_rec status attempt bounce = .ok (st, att, bo) →
      st < 400) := by
  constructor
  · intro h
    rw [send_get_request_rec, h]
    rfl
  · have key : ∀ n b a, 11 - b = n → ∀ st att bo,
        send_get_request_rec status a b = .ok (st, att, bo) → st < 400 := by
      intro n
      induction n with
      | zero =>
        intro b a hn st att bo h
        rw [send_get_request_rec] at h
        cases hc : ureq_call (status a) with
        | error e =>
            simp only [hc] at h
            exact Except.noConfusion h
        | ok s =>
          simp only [hc] at h
          rw [if_neg (by omega : ¬(s = 429 ∧ b ≤ 10))] at h
          injection h with h
          rw [Prod.mk.injEq, Prod.mk.injEq] at h
          have := ureq_call_ok_lt (status a) s hc
          omega
      | succ n ih =>
        intro b a hn st att bo h
        rw [send_get_request_rec] at h
        cases hc : ureq_call (status a) with
        | error e =>
            simp only [hc] at h
            exact Except.noConfusion h
        | ok s =>
          simp only [hc] at h
          by_cases hif : s = 429 ∧ b ≤ 10
          · rw [if_pos hif] at h
            exact ih (b + 1) (a + 1) (by omega) st att bo h
          · rw [if_neg hif] at h
            injection h with h
            rw [Prod.mk.injEq, Prod.mk.injEq] at h
            have := ureq_call_ok_lt (status a) s hc
            omega
    exact key (11 - bounce) bounce attempt rfl

/-- Witness for `status_429_fails_immediately`: an all-429 upstream fails
immediately from a nonzero counter state, and an all-200 upstream
succeeds with a status below 400. -/
theorem status_429_fails_immediately_witness :
    send_get_request_rec (fun _ => 429) 5 3
      = .error
        "http status: 429, you might not be connected to the internet." ∧
    (200 : Nat) < 400 :=
  ⟨(status_429_fails_immediately (fun _ => 429) 5 3).1 rfl,
    (status_429_fails_immediately (fun _ => 200) 0 0).2 200 0 0
      (by simp [send_get_request_rec, ureq_call])⟩

/-! ## Claim C10 : the 100 MB download cap -/

/-- Claim C10: a successful `get_bytes` call returns at most 100,000,000
bytes, and a response body exceeding the cap makes `get_bytes` return an
error rather than an oversized buffer. -/
theorem get_bytes_capped (body : List Nat) :
    (∀ b, get_bytes body = .ok b → b.length ≤ 100000000) ∧
    (body.length > 100000000 →
      get_bytes body = .error "Broken link : body exceeds limit") := by
  constructor
  · intro b hok
    unfold get_bytes read_to_vec_limited at hok
    by_cases h : body.length > 100000000
    · simp [h] at hok
    · simp [h] at hok
      subst hok
      omega
  · intro h
    unfold get_bytes read_to_vec_limited
    simp [h]

/-- Witness for `get_bytes_capped` on a concrete three-byte body. -/
theorem get_bytes_capped_witness :
    get_bytes [1, 2, 3] = .ok [1, 2, 3] ∧ [1, 2, 3].length ≤ 100000000 :=
  ⟨by rfl, (get_bytes_capped [1, 2, 3]).1 [1, 2, 3] (by rfl)⟩

end AutEBook

namespace AutEBook

/-! ## Supporting lemmas about the identifier set -/

/-- Membership in the set after one `HashSet::insert`. -/
theorem mem_insertId (init : List String) (x a : String) :
    a ∈ insertId init x ↔ a ∈ init ∨ a = x := by
  unfold insertId
  by_cases hx : x ∈ init
  · simp only [if_pos hx]
    constructor
    · exact Or.inl
    · rintro (h | rfl)
      · exact h
      · exact hx
  · simp [if_neg hx]

/-- Membership in the set after folding a list of insertions. -/
theorem mem_foldl_insertId (l init : List String) (a : String) :
    a ∈ l.foldl insertId init ↔ a ∈ init ∨ a ∈ l := by
  induction l generalizing init with
  | nil => simp
  | cons x xs ih =>
    rw [List.foldl_cons, ih, mem_insertId]
    simp [or_assoc]

/-- Folding duplicate-free, fresh insertions into the set appends them. -/
theorem foldl_insertId_of_disjoint (l : List String) :
    ∀ init : List String, l.Nodup → (∀ a ∈ l, a ∉ init) →
      l.foldl insertId init = init ++ l := by
  induction l with
  | nil => intro init _ _; simp
  | cons x xs ih =>
    intro init hnd hdisj
    have hx : x ∉ init := hdisj x (List.mem_cons_self x xs)
    rw [List.foldl_cons, insertId, if_neg hx,
      ih (init ++ [x]) (List.Nodup.of_cons hnd)]
    · simp
    · intro a ha
      simp only [List.mem_append, List.mem_singleton, not_or]
      refine ⟨hdisj a (List.mem_cons_of_mem _ ha), ?_⟩
      rintro rfl
      exact (List.nodup_cons.mp hnd).1 ha

/-- The chapter-level fold used by `chapter_to_update_ids`, reduced to the
string-level fold. -/
theorem mem_chapter_to_update_ids (fetched current : Book) (a : String) :
    a ∈ chapter_to_update_ids fetched current ↔
      a ∈ date_advanced_ids fetched current ∨
      a ∈ (new_chapters fetched current).map Chapter.identifier := by
  unfold chapter_to_update_ids
  rw [← List.foldl_map]
  exact mem_foldl_insertId _ _ _

/-- A date-advanced identifier always has a current chapter carrying it. -/
theorem date_advanced_ids_have_current_match (fetched current : Book)
    (a : String) (ha : a ∈ date_advanced_ids fetched current) :
    ∃ c ∈ current.chapters, c.identifier = a := by
  unfold date_advanced_ids at ha
  rw [mem_foldl_insertId] at ha
  rcases ha with h | ha
  · exact absurd h (List.not_mem_nil a)
  · obtain ⟨f, hf, rfl⟩ := List.mem_map.mp ha
    obtain ⟨-, hq⟩ := List.mem_filter.mp hf
    obtain ⟨c, hc, hcq⟩ := List.any_eq_true.mp hq
    rw [Bool.and_eq_true, beq_iff_eq] at hcq
    exact ⟨c, hc, hcq.1⟩

/-- A new chapter has no current chapter with its identifier. -/
theorem new_chapters_no_current_match (fetched current : Book)
    (g : Chapter) (hg : g ∈ new_chapters fetched current) :
    ∀ c ∈ current.chapters, c.identifier ≠ g.identifier := by
  obtain ⟨-, hq⟩ := List.mem_filter.mp hg
  rw [Bool.not_eq_eq_eq_not, Bool.not_true, List.any_eq_false] at hq
  intro c hc heq
  have := hq c hc
  rw [show (c == g) = (c.identifier == g.identifier) from rfl] at this
  simp [heq] at this

/-- Set cardinality of `chapter_to_update_ids`: date-advanced identifiers
and new-chapter identifiers are disjoint, so (given a duplicate-free remote
index) the set size is the sum. -/
theorem chapter_to_update_ids_length (fetched current : Book)
    (hnodup : (fetched.chapters.map Chapter.identifier).Nodup) :
    (chapter_to_update_ids fetched current).length
      = (date_advanced_ids fetched current).length
        + (new_chapters fetched current).length := by
  unfold chapter_to_update_ids
  rw [← List.foldl_map, foldl_insertId_of_disjoint]
  · rw [List.length_append, List.length_map]
  · exact ((List.filter_sublist _).map Chapter.identifier).nodup hnodup
  · intro a ha hadv
    obtain ⟨c, hc, hcid⟩ :=
      date_advanced_ids_have_current_match fetched current a hadv
    obtain ⟨g, hg, rfl⟩ := List.mem_map.mp ha
    exact new_chapters_no_current_match fetched current g hg c hc hcid

/-- Every chapter coming out of the update pass has content, provided the
previously-materialized chapters all had content and every page fetch
succeeds with non-empty content. -/
theorem refresh_preserves_content (fetch : PageOracle)
    (fetched current : Book)
    (hcur : ∀ c ∈ current.chapters, c.content.isSome = true)
    (hfet : ∀ u p, fetch u = .ok p → p.content.isSome = true)
    (hok : ∀ u, ∃ p, fetch u = .ok p) :
    ∀ c ∈ current.chapters ++ new_chapters fetched current,
      ((if c.identifier ∈ chapter_to_update_ids fetched current then
          (update_chapter_content fetch c).chapter
        else c).content.isSome) = true := by
  intro c hc
  by_cases hs : c.content.isSome = true
  · split
    · simp only [update_chapter_content, hs, if_true]
    · exact hs
  · have hs' : c.content.isSome = false := by
      revert hs; cases c.content <;> simp
    rcases List.mem_append.mp hc with hcu | hcn
    · rw [hcur c hcu] at hs'
      exact absurd hs' (by simp)
    · have hmem : c.identifier ∈ chapter_to_update_ids fetched current := by
        rw [mem_chapter_to_update_ids]
        exact Or.inr (List.mem_map_of_mem Chapter.identifier hcn)
      rw [if_pos hmem]
      obtain ⟨p, hp⟩ := hok c.url
      simp only [update_chapter_content, hs', Bool.false_eq_true, if_false,
        hp]
      exact hfet c.url p hp

end AutEBook

namespace AutEBook

/-! ## Claim C1 : per-chapter refresh and failure isolation -/

/-- Claim C1, counterexample: a chapter whose identifier is in `to_refresh`
because its remote `date_published` moved forward is NOT re-fetched when it
already holds content — the early-return guard of `update_chapter_content`
performs zero network requests and the stale content survives the sync,
even though the oracle would have served new content and the sync reports
`Updated 1`. -/
theorem date_advanced_chapter_not_refetched :
    get_book (fun _ => .ok ⟨some "new", none, none⟩)
        ⟨"1", "u", "t", "a", "d", 0, "cov2",
          [⟨"100", 5, "t", "u1", none, none, none⟩]⟩
        (some ⟨"1", "u", "t", "a", "d", 0, "cov",
          [⟨"100", 1, "t", "u1", some "old", none, none⟩]⟩)
      = .ok
        (⟨"1", "u", "t", "a", "d", 0, "cov2",
          [⟨"100", 1, "t", "u1", some "old", none, none⟩]⟩,
          .Updated 1) ∧
    (update_chapter_content (fun _ => .ok ⟨some "new", none, none⟩)
        ⟨"100", 1, "t", "u1", some "old", none, none⟩).requests = 0 :=
  ⟨rfl, rfl⟩

/-- Claim C1 as amended: for every chapter in `to_refresh` whose content is
not yet present, the engine performs exactly one fetch through the Fetch
Layer and stores whatever the page yields; a chapter already holding
content is returned unchanged with zero fetches (date-advanced chapters
keep their stale content); a per-chapter fetch failure is reported through
the returned `Err`, leaves that chapter's `content = None`, and never
aborts the whole sync: `get_book` succeeds whenever the refresh count fits
in a `u16`, regardless of per-chapter failures. -/
theorem chapter_refresh_isolated (fetch : PageOracle) (c : Chapter)
    (fetched current : Book) :
    (c.content.isSome = true →
      update_chapter_content fetch c = ⟨c, .ok (), 0⟩) ∧
    (c.content = none → ∀ e, fetch c.url = .error e →
      update_chapter_content fetch c = ⟨c, .error e, 1⟩) ∧
    (c.content = none → ∀ p, fetch c.url = .ok p →
      update_chapter_content fetch c =
        ⟨{ c with
            content := p.content
            authors_note_start := p.authors_note_start
            authors_note_end := p.authors_note_end },
          .ok (), 1⟩) ∧
    ((chapter_to_update_ids fetched current).length ≤ 65535 →
      ∃ bk res, get_book fetch fetched (some current) = .ok (bk, res)) := by
  refine ⟨?_, ?_, ?_, ?_⟩
  · intro hs
    simp [update_chapter_content, hs]
  · intro hn e he
    simp [update_chapter_content, hn, he]
  · intro hn p hp
    simp [update_chapter_content, hn, hp]
  · intro hlen
    have h : get_book fetch fetched (some current)
        = .ok
          ({ current with
              chapters := refreshed_chapters fetch fetched current
              cover_url := fetched.cover_url },
            if (chapter_to_update_ids fetched current).length > 0 then
              .Updated (chapter_to_update_ids fetched current).length
            else .UpToDate) := by
      simp only [get_book, Option.getD_some]
      rw [if_neg (by omega)]
    exact ⟨_, _, h⟩

/-- Witness for `chapter_refresh_isolated`, exercising all four branches:
an already-filled chapter is untouched with zero requests, a failing fetch
is reported and leaves `content = None`, a successful fetch fills the
chapter, and the sync as a whole still succeeds under a failing oracle. -/
theorem chapter_refresh_isolated_witness :
    update_chapter_content (fun _ => .ok ⟨some "body", none, none⟩)
        ⟨"100", 1, "t", "u1", some "old", none, none⟩
      = ⟨⟨"100", 1, "t", "u1", some "old", none, none⟩, .ok (), 0⟩ ∧
    update_chapter_content (fun _ => .error "timeout")
        ⟨"101", 2, "t", "u2", none, none, none⟩
      = ⟨⟨"101", 2, "t", "u2", none, none, none⟩, .error "timeout", 1⟩ ∧
    update_chapter_content (fun _ => .ok ⟨some "body", none, none⟩)
        ⟨"101", 2, "t", "u2", none, none, none⟩
      = ⟨⟨"101", 2, "t", "u2", some "body", none, none⟩, .ok (), 1⟩ ∧
    ∃ bk res,
      get_book (fun _ => .error "timeout")
          ⟨"1", "u", "t", "a", "d", 0, "cov2",
            [⟨"101", 2, "t", "u2", none, none, none⟩]⟩
          (some ⟨"1", "u", "t", "a", "d", 0, "cov",
            [⟨"100", 1, "t", "u1", some "old", none, none⟩]⟩)
        = .ok (bk, res) :=
  ⟨(chapter_refresh_isolated (fun _ => .ok ⟨some "body", none, none⟩)
      ⟨"100", 1, "t", "u1", some "old", none, none⟩
      ⟨"1", "u", "t", "a", "d", 0, "cov2", []⟩
      ⟨"1", "u", "t", "a", "d", 0, "cov", []⟩).1 rfl,
    (chapter_refresh_isolated (fun _ => .error "timeout")
      ⟨"101", 2, "t", "u2", none, none, none⟩
      ⟨"1", "u", "t", "a", "d", 0, "cov2", []⟩
      ⟨"1", "u", "t", "a", "d", 0, "cov", []⟩).2.1 rfl "timeout" rfl,
    (chapter_refresh_isolated (fun _ => .ok ⟨some "body", none, none⟩)
      ⟨"101", 2, "t", "u2", none, none, none⟩
      ⟨"1", "u", "t", "a", "d", 0, "cov2", []⟩
      ⟨"1", "u", "t", "a", "d", 0, "cov", []⟩).2.2.1 rfl
      ⟨some "body", none, none⟩ rfl,
    (chapter_refresh_isolated (fun _ => .error "timeout")
      ⟨"100", 1, "t", "u1", some "old", none, none⟩
      ⟨"1", "u", "t", "a", "d", 0, "cov2",
        [⟨"101", 2, "t", "u2", none, none, none⟩]⟩
      ⟨"1", "u", "t", "a", "d", 0, "cov",
        [⟨"100", 1, "t", "u1", some "old", none, none⟩]⟩).2.2.2
      (by decide)⟩

/-! ## Claim C3 : the Updated(n) accounting identity -/

/-- Claim C3, counterexample: a sync that produces `Updated(1)` for a
single new chapter whose fetch fails drops the chapter, so the resulting
cardinality minus the input cardinality plus the date-advanced count is 0,
not 1. -/
theorem updated_count_drops_failed_chapters :
    get_book (fun _ => .error "boom")
        ⟨"1", "u", "t", "a", "d", 0, "cov",
          [⟨"200", 3, "t", "u3", none, none, none⟩]⟩
        (some ⟨"1", "u", "t", "a", "d", 0, "cov", []⟩)
      = .ok (⟨"1", "u", "t", "a", "d", 0, "cov", []⟩, .Updated 1) ∧
    (date_advanced_ids
        ⟨"1", "u", "t", "a", "d", 0, "cov",
          [⟨"200", 3, "t", "u3", none, none, none⟩]⟩
        ⟨"1", "u", "t", "a", "d", 0, "cov", []⟩).length = 0 ∧
    ((0 : Int) - 0 + 0 ≠ 1) :=
  ⟨rfl, rfl, by decide⟩

/-- Claim C3 as amended: if every previously-materialized chapter has
content and every refresh fetch succeeds with content, then for every sync
call producing `UpdateResult::Updated(n)`, the resulting chapter-list
cardinality minus the input `current` cardinality, plus the number of
date-advanced chapters, equals `n`.  (Without those provisos the identity
fails by exactly the number of chapters dropped for missing content.) -/
theorem updated_count_accounting (fetch : PageOracle)
    (fetched current : Book)
    (hcur : ∀ c ∈ current.chapters, c.content.isSome = true)
    (hfet : ∀ u p, fetch u = .ok p → p.content.isSome = true)
    (hok : ∀ u, ∃ p, fetch u = .ok p)
    (hnodup : (fetched.chapters.map Chapter.identifier).Nodup) :
    ∀ bk n, get_book fetch fetched (some current) = .ok (bk, .Updated n) →
      (bk.chapters.length : Int) - current.chapters.length
        + (date_advanced_ids fetched current).length = n := by
  intro bk n heq
  simp only [get_book, Option.getD_some] at heq
  split at heq
  · exact Except.noConfusion heq
  · rw [Except.ok.injEq, Prod.mk.injEq] at heq
    obtain ⟨hbk, hres⟩ := heq
    have hchap : bk.chapters = refreshed_chapters fetch fetched current := by
      rw [← hbk]
    have hn : (chapter_to_update_ids fetched current).length = n := by
      revert hres
      split
      · intro hres
        rw [UpdateResult.Updated.injEq] at hres
        exact hres
      · intro hres
        exact UpdateResult.noConfusion hres
    have hkeep : refreshed_chapters fetch fetched current
        = (current.chapters ++ new_chapters fetched current).map fun c =>
            if c.identifier ∈ chapter_to_update_ids fetched current then
              (update_chapter_content fetch c).chapter
            else c := by
      unfold refreshed_chapters
      apply List.filter_eq_self.mpr
      intro c hc
      obtain ⟨c0, hc0, rfl⟩ := List.mem_map.mp hc
      exact refresh_preserves_content fetch fetched current hcur hfet hok
        c0 hc0
    have hlen : bk.chapters.length
        = current.chapters.length + (new_chapters fetched current).length := by
      rw [hchap, hkeep, List.length_map, List.length_append]
    have hids := chapter_to_update_ids_length fetched current hnodup
    rw [hlen]
    rw [hids] at hn
    omega

/-- Witness for `updated_count_accounting`: one already-filled current
chapter, one genuinely new chapter, an always-succeeding oracle; the sync
reports `Updated 1` and the accounting identity comes out to 1. -/
theorem updated_count_accounting_witness :
    get_book (fun _ => .ok ⟨some "x", none, none⟩)
        ⟨"1", "u", "t", "a", "d", 0, "cov2",
          [⟨"300", 1, "t", "u5", none, none, none⟩,
            ⟨"301", 1, "t", "u6", none, none, none⟩]⟩
        (some ⟨"1", "u", "t", "a", "d", 0, "cov",
          [⟨"300", 1, "t", "u5", some "a", none, none⟩]⟩)
      = .ok
        (⟨"1", "u", "t", "a", "d", 0, "cov2",
          [⟨"300", 1, "t", "u5", some "a", none, none⟩,
            ⟨"301", 1, "t", "u6", some "x", none, none⟩]⟩,
          .Updated 1) ∧
    ((2 : Int) - 1
        + (date_advanced_ids
            ⟨"1", "u", "t", "a", "d", 0, "cov2",
              [⟨"300", 1, "t", "u5", none, none, none⟩,
                ⟨"301", 1, "t", "u6", none, none, none⟩]⟩
            ⟨"1", "u", "t", "a", "d", 0, "cov",
              [⟨"300", 1, "t", "u5", some "a", none, none⟩]⟩).length = 1) := by
  have h : get_book (fun _ => .ok ⟨some "x", none, none⟩)
      ⟨"1", "u", "t", "a", "d", 0, "cov2",
        [⟨"300", 1, "t", "u5", none, none, none⟩,
          ⟨"301", 1, "t", "u6", none, none, none⟩]⟩
      (some ⟨"1", "u", "t", "a", "d", 0, "cov",
        [⟨"300", 1, "t", "u5", some "a", none, none⟩]⟩)
      = .ok
        (⟨"1", "u", "t", "a", "d", 0, "cov2",
          [⟨"300", 1, "t", "u5", some "a", none, none⟩,
            ⟨"301", 1, "t", "u6", some "x", none, none⟩]⟩,
          .Updated 1) := rfl
  refine ⟨h, ?_⟩
  have := updated_count_accounting (fun _ => .ok ⟨some "x", none, none⟩)
    ⟨"1", "u", "t", "a", "d", 0, "cov2",
      [⟨"300", 1, "t", "u5", none, none, none⟩,
        ⟨"301", 1, "t", "u6", none, none, none⟩]⟩
    ⟨"1", "u", "t", "a", "d", 0, "cov",
      [⟨"300", 1, "t", "u5", some "a", none, none⟩]⟩
    (by simp) (fun u p hp => by cases hp; rfl)
    (fun u => ⟨⟨some "x", none, none⟩, rfl⟩) (by decide)
    ⟨"1", "u", "t", "a", "d", 0, "cov2",
      [⟨"300", 1, "t", "u5", some "a", none, none⟩,
        ⟨"301", 1, "t", "u6", some "x", none, none⟩]⟩ 1 h
  simpa using this

end AutEBook

namespace AutEBook

/-! ## Claim C7 : determinism of the book id -/

/-- Claim C7, counterexample: parsing an existing archive whose
`identifier` metadata is absent yields a `Book` whose source URL is known
and identical across two parses, yet whose `id` is the freshly generated
random UUID — two constructions of a `Book` from the same URL produce
different ids, so the id is not a deterministic function of `source_url`. -/
theorem book_id_random_when_identifier_missing :
    (from_path_header
        ⟨some "https://www.royalroad.com/fiction/12345/t", none, some "t",
          some "a", some "d", some 0⟩ "3f2c-uuid-a" 0).url
      = (from_path_header
        ⟨some "https://www.royalroad.com/fiction/12345/t", none, some "t",
          some "a", some "d", some 0⟩ "9d41-uuid-b" 0).url ∧
    (from_path_header
        ⟨some "https://www.royalroad.com/fiction/12345/t", none, some "t",
          some "a", some "d", some 0⟩ "3f2c-uuid-a" 0).id
      ≠ (from_path_header
        ⟨some "https://www.royalroad.com/fiction/12345/t", none, some "t",
          some "a", some "d", some 0⟩ "9d41-uuid-b" 0).id := by
  constructor
  · rfl
  · decide

/-- Claim C7 as amended: the remote-fetch path derives the id
deterministically from the source URL — for any URL whose parse yields a
second path segment, RoyalRoad's `get_id_from_url` is independent of the
random UUID fallback, and the native variant returns the parsed numeric
segment — but `Book::from_path` takes the id from the archive's
`identifier` metadata when present, and generates a fresh random UUID when
it is absent, even though the source URL is known. -/
theorem book_id_derivation (url u1 u2 : String) (m : EpubMetadata)
    (i : String) (now : Int)
    (hseg : ((url_path_segments url).bind fun segs => segs.get? 1).isSome
      = true)
    (hm : m.identifier_meta = some i) :
    royalroad_get_id_from_url url u1 = royalroad_get_id_from_url url u2 ∧
    (∀ n, ((url_path_segments url).bind fun segs =>
        (segs.get? 1).bind parse_u32) = some n →
      native_get_id_from_url url = .ok n) ∧
    (from_path_header m u1 now).id = i := by
  refine ⟨?_, ?_, ?_⟩
  · unfold royalroad_get_id_from_url
    cases hx : (url_path_segments url).bind fun segs => segs.get? 1 with
    | none => rw [hx] at hseg; exact Bool.noConfusion hseg
    | some a => rfl
  · intro n hn
    unfold native_get_id_from_url
    rw [hn]
  · unfold from_path_header
    rw [hm]
    rfl

/-- Witness for `book_id_derivation` at a concrete RoyalRoad fiction URL
and an archive carrying its identifier metadata. -/
theorem book_id_derivation_witness :
    royalroad_get_id_from_url "https://www.royalroad.com/fiction/12345/x"
        "3f2c-uuid-a"
      = royalroad_get_id_from_url "https://www.royalroad.com/fiction/12345/x"
        "9d41-uuid-b" ∧
    native_get_id_from_url "https://www.royalroad.com/fiction/12345/x"
      = .ok 12345 ∧
    (from_path_header
        ⟨some "https://www.royalroad.com/fiction/12345/x", some "12345",
          some "t", some "a", some "d", some 0⟩ "3f2c-uuid-a" 0).id
      = "12345" := by
  obtain ⟨h1, h2, h3⟩ := book_id_derivation
    "https://www.royalroad.com/fiction/12345/x" "3f2c-uuid-a" "9d41-uuid-b"
    ⟨some "https://www.royalroad.com/fiction/12345/x", some "12345",
      some "t", some "a", some "d", some 0⟩ "12345" 0 (by decide) rfl
  exact ⟨h1, h2 12345 (by decide), h3⟩

/-! ## Claim C4 : the mimetype entry -/

/-- Claim C4, counterexample: for a concrete book the first entry of the
archive is indeed named `mimetype` with content exactly
`application/epub+zip`, but it is written with the Deflate compression
method configured by `SimpleFileOptions` — not as a stored (uncompressed)
entry as the claim states. -/
theorem mimetype_entry_not_stored :
    (write ⟨"1", "u", "t", "a", "d", 0, "cov", []⟩ [] (fun _ => none)).head?
      = some ⟨"mimetype", .Deflated, .bytes "application/epub+zip"⟩ ∧
    ((write ⟨"1", "u", "t", "a", "d", 0, "cov", []⟩ []
        (fun _ => none)).head?.map ZipEntry.method)
      ≠ some .Stored := by
  constructor
  · rfl
  · decide

/-- Claim C4 as amended: for every book, `write` produces a zip archive
whose first entry is named `mimetype` with content exactly
`application/epub+zip`, written with the same Deflate compression as every
other entry (not stored uncompressed). -/
theorem mimetype_first_entry (book : Book) (image_urls : List String)
    (download : String → Option String) :
    (write book image_urls download).head?
      = some ⟨"mimetype", .Deflated, .bytes "application/epub+zip"⟩ := rfl

/-! ## Claim C6 : image filename disambiguation -/

/-- Claim C6: when distinct image URLs reduce to the same filename during
EPUB assembly, the first processed occurrence keeps the unprefixed
filename and every subsequent collision is prefixed with an incrementing
integer in processing order (the loop iterates the URL `HashSet` in its
unspecified hash order, which the model takes as given).  For any
buffer-producing download oracle (every download succeeds, with arbitrary
bytes `bf u` per URL), the three distinct URLs ending in `/a/cover.jpg`,
`/b/cover.jpg`, `/c/cover.jpg` yield `cover.jpg`, `0_cover.jpg`,
`1_cover.jpg` — pairwise distinct, the first unprefixed, the rest prefixed
with strictly increasing integers in first-seen order. -/
theorem image_filename_disambiguation (bf : String → String) :
    (["https://site/a/cover.jpg", "https://site/b/cover.jpg",
        "https://site/c/cover.jpg"].foldl
      (write_image_step fun u => some (bf u)) ⟨[], [], 0⟩).image_filenames
      = ["cover.jpg", "0_cover.jpg", "1_cover.jpg"] ∧
    ["cover.jpg", "0_cover.jpg", "1_cover.jpg"].Nodup := by
  constructor
  · rfl
  · decide

end AutEBook

namespace AutEBook

/-! ## Claim C5 : resize policy -/

/-- Claim C5, counterexample: a 1x1 PNG is NOT returned unchanged — the
PNG path always decodes and re-encodes, and `resize` is called with
bounds `(600, 600*1/1)`, which upscales the image to 600x600 (the image
crate's `resize` scales to the largest size fitting the bounds, up or
down). -/
theorem one_by_one_png_upscaled :
    resize_action [0x89, 0x50, 0x4E, 0x47, 0x0D, 0x0A, 0x1A, 0x0A, 0x00]
      = .ok (.reencode .Png) ∧
    rezise_dims 1 1 = (600, 600) ∧
    ((600, 600) : Nat × Nat) ≠ (1, 1) :=
  ⟨rfl, by decide, by decide⟩

/-- Claim C5 as amended: PNG, JPEG and WEBP inputs are always decoded,
scaled to the maximum size fitting within `(600, 600*height/width)` —
upscaling images narrower than 600 pixels rather than returning them
unchanged — and re-encoded.  The resulting width never exceeds 600
pixels, and a 1200-pixel-wide image of even height resizes to exactly
600 wide with proportional (halved) height.  Only GIF and SVG bytes pass
through unchanged. -/
theorem rezise_width_bound (w h : Nat) (hw : 0 < w) (hh : 0 < h) :
    (rezise_dims w h).1 ≤ 600 ∧
    (w = 1200 → h % 2 = 0 → rezise_dims w h = (600, h / 2)) := by
  constructor
  · unfold rezise_dims resize_dimensions
    by_cases hc : 600 * h ≤ 600 * h / w * w
    · simp only [if_pos hc]
      have : 2 * (w * 600) + w = w * 1201 := by ring
      rw [this, show 2 * w = w * 2 by ring, Nat.mul_div_mul_left _ _ hw]
      simp
    · simp only [if_neg hc]
      have hlt : 600 * h / w * w < 600 * h := by omega
      have hb : 2 * (w * (600 * h / w)) + h < 601 * (2 * h) := by
        have : w * (600 * h / w) = 600 * h / w * w := by ring
        omega
      have := (Nat.div_lt_iff_lt_mul (by omega : 0 < 2 * h)).mpr hb
      simp only [max_le_iff]
      omega
  · rintro rfl heven
    obtain ⟨k, rfl⟩ : ∃ k, h = 2 * k := ⟨h / 2, by omega⟩
    have hk : 0 < k := by omega
    have hnh : 600 * (2 * k) / 1200 = k := by
      rw [show 600 * (2 * k) = 1200 * k by ring,
        Nat.mul_div_cancel_left _ (by norm_num)]
    unfold rezise_dims resize_dimensions
    rw [hnh]
    have hc : 600 * (2 * k) ≤ k * 1200 := by omega
    simp only [if_pos hc]
    have h1 : (2 * (1200 * 600) + 1200) / (2 * 1200) = 600 := by norm_num
    have h2 : (2 * (2 * k * 600) + 1200) / (2 * 1200) = k := by
      rw [show 2 * (2 * k * 600) + 1200 = 1200 + k * 2400 by ring,
        show 2 * 1200 = 2400 by norm_num,
        Nat.add_mul_div_right _ _ (by norm_num : (0:Nat) < 2400)]
      norm_num
    rw [h1, h2]
    have : max 600 1 = 600 := by norm_num
    rw [this, max_eq_left (by omega : 1 ≤ k),
      show 2 * k / 2 = k from Nat.mul_div_cancel_left _ (by norm_num)]

/-- Witness for `rezise_width_bound`: the width bound at the odd-height
input 1200x601 (which comes out 599 wide, not 600) and the exact
1200x50 → 600x25 resize. -/
theorem rezise_width_bound_witness :
    (rezise_dims 1200 601).1 ≤ 600 ∧ rezise_dims 1200 50 = (600, 25) :=
  ⟨(rezise_width_bound 1200 601 (by decide) (by decide)).1,
    (rezise_width_bound 1200 50 (by decide) (by decide)).2 rfl rfl⟩

end AutEBook

namespace AutEBook

/-! ## Sanitizer validation and Claim C9

The first four examples replicate the repository's own unit tests of
`clean_html` (`src/updater/native/epub.rs` lines 1056-1119), validating
the embedding. -/

example :
    clean_html
      "<span style=\"color: rgba(0, 235, 255, 1); font-family: consolas, terminal, monaco\">txt</span>"
      = "<span style=\"color: rgba(0, 235, 255, 1);\">txt</span>" := by
  decide

example :
    clean_html
      "<span style=\"font-family: consolas, terminal, monaco; color: rgba(0, 235, 255, 1)\">txt</span>"
      = "<span style=\"color: rgba(0, 235, 255, 1)\">txt</span>" := by
  decide

example :
    clean_html
      "<p class=\"cnM5NDA4MTVmMmRlNzQ1ZjI5YmRmZDcxYjgxYTc5NGYx\" style=\"text-align: center\">&nbsp;</p>"
      = "" := by
  decide

example :
    clean_html "<img src=\"https://site.com/img.gif\" alt=\"image\">"
      = "<img src=\"https://site.com/img.gif\" alt=\"image\"/>" := by
  decide

example :
    clean_html "<img src=\"https://site.com/img.gif\" alt=\"image\"/>"
      = "<img src=\"https://site.com/img.gif\" alt=\"image\"/>" := by
  decide

/-- A pass whose matcher fires nowhere in the input is the identity. -/
theorem replaceAllAux_of_no_match (m : Matcher) (fuel : Nat) :
    ∀ l : List Char, hasMatch m l = false → replaceAllAux m fuel l = l := by
  induction fuel with
  | zero => intro l _; rfl
  | succ fuel ih =>
    intro l h
    cases l with
    | nil => rfl
    | cons c cs =>
      unfold hasMatch at h
      rw [Bool.or_eq_false_iff] at h
      have hm : m (c :: cs) = none := by
        cases hx : m (c :: cs) with
        | none => rfl
        | some v => rw [hx] at h; simp at h
      unfold replaceAllAux
      rw [hm]
      exact congrArg (c :: ·) (ih cs h.2)

/-- `runPass` is the identity on strings its matcher never fires in. -/
theorem runPass_of_no_match (m : Matcher) (s : String)
    (h : hasMatch m s.data = false) : runPass m s = s := by
  unfold runPass
  rw [replaceAllAux_of_no_match m _ _ h]

/-- Claim C9, counterexample: the sanitizer is not idempotent.  Removing
`overflow: auto` from the middle of `font-famoverflow: autoily: x;`
splices together `font-family: x;`, a new removable pattern that only
the second application strips:
`clean_html` of it is `font-family: x;`, but `clean_html` applied twice
gives the empty string. -/
theorem clean_html_not_idempotent :
    clean_html "font-famoverflow: autoily: x;" = "font-family: x;" ∧
    clean_html (clean_html "font-famoverflow: autoily: x;") = "" ∧
    clean_html (clean_html "font-famoverflow: autoily: x;")
      ≠ clean_html "font-famoverflow: autoily: x;" := by
  refine ⟨by decide, by decide, by decide⟩

/-- Claim C9 as amended: the sanitizer is idempotent on every input
whose sanitized form contains no occurrence of any of the eleven
removable patterns (`fully_clean`); it is not idempotent in general,
because a deletion can splice together a new removable pattern out of
surrounding text. -/
theorem clean_html_conditionally_idempotent (x : String)
    (h : fully_clean (clean_html x) = true) :
    clean_html (clean_html x) = clean_html x := by
  set t := clean_html x with ht
  simp only [fully_clean, clean_html_matchers, List.all_cons, List.all_nil,
    Bool.and_eq_true, Bool.not_eq_true', Bool.and_true] at h
  obtain ⟨h1, h2, h3, h4, h5, h6, h7, h8, h9, h10, h11⟩ := h
  simp only [clean_html]
  rw [runPass_of_no_match font_family_matcher_1 t h1,
    runPass_of_no_match font_family_matcher_2 t h2,
    runPass_of_no_match
      (colon_value_matcher "font-weight:".data "normal".data) t h3,
    runPass_of_no_match
      (colon_value_matcher "font-weight:".data "400".data) t h4,
    runPass_of_no_match class_attr_matcher t h5,
    runPass_of_no_match img_close_matcher t h6,
    runPass_of_no_match (literal_matcher "<br>".data "<br/>".data) t h7,
    runPass_of_no_match (literal_matcher "<hr>".data "<hr/>".data) t h8,
    runPass_of_no_match (literal_matcher "&nbsp;".data " ".data) t h9,
    runPass_of_no_match empty_p_matcher t h10,
    runPass_of_no_match
      (colon_value_matcher "overflow:".data "auto".data) t h11]

/-- Witness for `clean_html_conditionally_idempotent` at `<br>`: one
pass closes the tag to `<br/>`, which no pattern touches, and a second
pass leaves it alone. -/
theorem clean_html_conditionally_idempotent_witness :
    fully_clean (clean_html "<br>") = true ∧
    clean_html (clean_html "<br>") = clean_html "<br>" :=
  ⟨by decide, clean_html_conditionally_idempotent "<br>" (by decide)⟩

end AutEBook
